import Mathlib

/-!
# Verification of the movie_db dataset-refresh pipeline

Shallow embedding of the Python sources under `src/movie_db/`:

* `_movies.py`    — Movie row filtering and extraction (`_title_is_valid`,
  `_extract_movies`, `title_ids` registry, `update`);
* `_people.py`    — Person row filtering (`_has_valid_known_for_title_ids`,
  `_extract_people`, the `NAME_REGEX` first/last-name split);
* `_aka_titles.py` — AkaTitle filtering (`_extract_aka_titles`);
* `viewings.py`   — the viewings YAML round trip (`Viewing.to_yaml`,
  `Viewing.load`) and the viewings table DDL;
* `utils/download_imdb_file.py` — the generation-keyed download cache.

Rows of the tab-separated snapshots are sequences of nullable text fields;
they are embedded as structures of `Option String` fields, one structure per
snapshot kind, with field `fK` standing for the Python `fields[K]`.
-/

set_option autoImplicit false

namespace MovieDb

/-- Python `str(x)` applied to an `Optional[str]`: `str(None)` is the literal
string `"None"`. -/
def pyStr : Option String → String
  | none => "None"
  | some s => s

/-- Python truthiness of an `Optional[str]` (`bool(x)`): `None` and the empty
string are falsy, every other string is truthy. -/
def pyTruthy : Option String → Bool
  | none => false
  | some s => s ≠ ""

/-- Python `s.split(',')` on the character list: splitting on a one-character
separator, where the empty string yields `[""]` (never an empty list). -/
def splitCommaChars : List Char → List (List Char)
  | [] => [[]]
  | c :: cs =>
      if c = ',' then [] :: splitCommaChars cs
      else
        match splitCommaChars cs with
        | [] => [[c]]
        | h :: t => (c :: h) :: t

/-- Python `s.split(',')`. -/
def pySplitComma (s : String) : List String :=
  (splitCommaChars s.toList).map (fun cs => String.mk cs)

/-! ## Python dict as an association list

`d[k] = v` overwrites an existing binding in place (the key keeps its
insertion position) or appends a fresh binding at the end. -/

/-- Python dict assignment `d[k] = v` for a dict modelled as an association list. -/
def dictInsert {α : Type} (d : List (String × α)) (k : String) (v : α) :
    List (String × α) :=
  if d.any (fun p => p.1 = k) then
    d.map (fun p => if p.1 = k then (k, v) else p)
  else d ++ [(k, v)]

/-- Python dict membership `k in d` for a dict modelled as an association list. -/
def dictContains {α : Type} (d : List (String × α)) (k : String) : Bool :=
  d.any (fun p => p.1 = k)

theorem dictContains_dictInsert {α : Type} (d : List (String × α)) (k k' : String)
    (v : α) :
    dictContains (dictInsert d k v) k' = true ↔
      dictContains d k' = true ∨ k' = k := by
  have hfst : ∀ p : String × α, (if p.1 = k then (k, v) else p).1 = p.1 := by
    intro p; by_cases hpk : p.1 = k <;> simp [hpk]
  unfold dictInsert dictContains
  by_cases h : (d.any (fun p => p.1 = k)) = true
  · rw [if_pos h, List.any_map]
    have heq : ((fun p : String × α => decide (p.1 = k')) ∘
        (fun p : String × α => if p.1 = k then (k, v) else p)) =
        (fun p : String × α => decide (p.1 = k')) := by
      funext p
      simp only [Function.comp]
      rw [hfst]
    rw [heq]
    constructor
    · exact fun hc => Or.inl hc
    · rintro (hc | rfl)
      · exact hc
      · exact h
  · rw [if_neg h, List.any_append]
    simp only [List.any_cons, List.any_nil, Bool.or_false, Bool.or_eq_true,
      decide_eq_true_eq]
    constructor
    · rintro (hc | hk)
      · exact Or.inl hc
      · exact Or.inr hk.symm
    · rintro (hc | hk)
      · exact Or.inl hc
      · exact Or.inr hk.symm

/-! ## `_movies.py` -/

/-- One row of `title.basics.tsv` as the extractor hands it to `_movies.py`:
nine nullable fields, `fK` standing for `fields[K]`. -/
structure TitleRow where
  f0 : Option String
  f1 : Option String
  f2 : Option String
  f3 : Option String
  f4 : Option String
  f5 : Option String
  f6 : Option String
  f7 : Option String
  f8 : Option String
deriving DecidableEq

/-- The Movie record assigned by `Movie.__init__` in `_movies.py`. -/
structure Movie where
  imdb_id : String
  title : String
  original_title : Bool
  year : String
  runtime_minutes : String
deriving DecidableEq

/-- Constructor `Movie(fields)`: `str(fields[0])`, `str(fields[2])`, `bool(fields[3])`,
`str(fields[5])`, `str(fields[7])`. -/
def Movie.ofRow (t : TitleRow) : Movie :=
  { imdb_id := pyStr t.f0
    title := pyStr t.f2
    original_title := pyTruthy t.f3
    year := pyStr t.f5
    runtime_minutes := pyStr t.f7 }

/-- Predicate `_title_is_valid` from `_movies.py`: reject unless `fields[1] == 'movie'`;
reject if `fields[4] == '1'`; reject if `fields[5] is None`; reject if
`'Documentary' in set(str(fields[8]).split(','))`. -/
def title_is_valid (t : TitleRow) : Bool :=
  if t.f1 ≠ some "movie" then false
  else if t.f4 = some "1" then false
  else if t.f5 = none then false
  else if "Documentary" ∈ pySplitComma (pyStr t.f8) then false
  else true

/-- Function `_extract_movies` from `_movies.py`: a forward pass storing
`movies[str(fields[0])] = Movie(fields)` for every valid row. -/
def extract_movies (rows : List TitleRow) : List (String × Movie) :=
  rows.foldl
    (fun acc t =>
      if title_is_valid t then dictInsert acc (pyStr t.f0) (Movie.ofRow t)
      else acc)
    []

/-- Both keyed extractors are folds storing `acc[key r] = value r` for every
row passing their validity predicate; a key is present in the result iff it
was present in the accumulator or some valid row carries it. -/
theorem dictContains_foldl_filtered {α β : Type} (valid : β → Bool)
    (key : β → String) (value : β → α) (rows : List β)
    (acc : List (String × α)) (id : String) :
    dictContains
        (rows.foldl
          (fun acc r =>
            if valid r then dictInsert acc (key r) (value r) else acc)
          acc)
        id = true ↔
      dictContains acc id = true ∨
        ∃ r ∈ rows, valid r = true ∧ key r = id := by
  induction rows generalizing acc with
  | nil => simp
  | cons r rs ih =>
      simp only [List.foldl_cons, ih, List.mem_cons]
      by_cases hv : valid r = true
      · simp only [hv, if_pos, dictContains_dictInsert]
        constructor
        · rintro (⟨hc | hk⟩ | ⟨t, ht, hvt, hid⟩)
          · exact Or.inl hc
          · exact Or.inr ⟨r, Or.inl rfl, hv, hk.symm⟩
          · exact Or.inr ⟨t, Or.inr ht, hvt, hid⟩
        · rintro (hc | ⟨t, ht | ht, hvt, hid⟩)
          · exact Or.inl (Or.inl hc)
          · exact Or.inl (Or.inr (ht ▸ hid).symm)
          · exact Or.inr ⟨t, ht, hvt, hid⟩
      · simp only [hv, if_neg, if_false]
        constructor
        · rintro (hc | ⟨t, ht, hvt, hid⟩)
          · exact Or.inl hc
          · exact Or.inr ⟨t, Or.inr ht, hvt, hid⟩
        · rintro (hc | ⟨t, ht | ht, hvt, hid⟩)
          · exact Or.inl hc
          · exact absurd (ht ▸ hvt) hv
          · exact Or.inr ⟨t, ht, hvt, hid⟩

/-- C1: the Movie extractor accepts a snapshot row iff its type field equals
the feature-movie tag `'movie'`, its adult flag is falsy (the isAdult flag is
set exactly when the field is the string `'1'`), its year field is present,
and its comma-separated genre set does not contain `"Documentary"`; and an
identifier is a key of the resulting mapping iff some accepted row carries it,
so every accepted row, and no rejected row, appears keyed by its
identifier. -/
theorem movies_accepted_iff :
    (∀ t : TitleRow,
      title_is_valid t = true ↔
        (t.f1 = some "movie" ∧ ¬ t.f4 = some "1" ∧ ¬ t.f5 = none ∧
          "Documentary" ∉ pySplitComma (pyStr t.f8))) ∧
    (∀ (rows : List TitleRow) (id : String),
      dictContains (extract_movies rows) id = true ↔
        ∃ t ∈ rows, title_is_valid t = true ∧ pyStr t.f0 = id) := by
  constructor
  · intro t
    unfold title_is_valid
    by_cases h1 : t.f1 = some "movie" <;>
      by_cases h4 : t.f4 = some "1" <;>
        by_cases h5 : t.f5 = none <;>
          by_cases h8 : "Documentary" ∈ pySplitComma (pyStr t.f8) <;>
            simp [h1, h4, h5, h8]
  · intro rows id
    have h := dictContains_foldl_filtered title_is_valid
      (fun t => pyStr t.f0) Movie.ofRow rows [] id
    simpa [extract_movies, dictContains] using h

/-- Keys of a Python dict modelled as an association list; for the extracted
movie mapping these are the accepted movie identifiers, matching what
`title_ids()` reads back from the persisted `movies` table
(`select imdb_id from movies`). -/
def dictKeys {α : Type} (d : List (String × α)) : List String :=
  d.map Prod.fst

/-! ## `_people.py`

`NAME_REGEX = re.compile(r'^([^\s]*)\s(.*)$')` and
`NAME_REGEX.split(str(fields[1]))`. The pattern is anchored, so `re.split`
either finds no match (returning the one-element list `[s]`) or matches once
from position 0 and returns `['', group1, group2, rest]`. Greedy `[^\s]*`
takes the maximal non-whitespace prefix, so the single whitespace consumed by
`\s` is the FIRST whitespace character of the string; `.` does not match a
newline and `$` also matches just before a trailing newline, so the match
exists only when the remainder after that first whitespace contains no
newline, or contains exactly one as its final character (which the match then
leaves unconsumed as `rest`). -/

/-- The characters matched by `\s` in the regex (ASCII part; snapshot fields
come from splitting tab-separated lines, so no tab or newline ever reaches
the name field in practice). -/
def isPySpace (c : Char) : Bool :=
  c = ' ' || c = '\t' || c = '\n' || c = '\r' || c = '\x0b' || c = '\x0c'

/-- Split a character list at its first whitespace character: returns the
(entirely non-whitespace) prefix before it and the suffix after it, or `none`
when the list has no whitespace character. -/
def findFirstSpace : List Char → Option (List Char × List Char)
  | [] => none
  | c :: cs =>
      if isPySpace c then some ([], cs)
      else
        match findFirstSpace cs with
        | none => none
        | some (p, r) => some (c :: p, r)

/-- The split `NAME_REGEX.split(s)` for `NAME_REGEX = re.compile(r'^([^\s]*)\s(.*)$')`,
per the `re.split` semantics described above. -/
def nameMatchList (s : String) : List String :=
  match findFirstSpace s.toList with
  | none => [s]
  | some (p, r) =>
      if '\n' ∈ r then
        if r.getLast? = some '\n' ∧ '\n' ∉ r.dropLast then
          ["", String.mk p, String.mk r.dropLast, "\n"]
        else [s]
      else ["", String.mk p, String.mk r, ""]

/-- The name-splitting dance of `Person.__init__` (`_people.py` lines 25-32):
`match = NAME_REGEX.split(...)`; `if len(match) == 1: match = ['', match[0],
'', '']`; `first_name = match[1]`, `last_name = match[2]`. Returns
`(first_name, last_name)`. -/
def person_first_last (fullName : String) : String × String :=
  let m0 := nameMatchList fullName
  let m := if m0.length = 1 then ["", m0.headD "", "", ""] else m0
  (m.getD 1 "", m.getD 2 "")

/-- One row of `name.basics.tsv` as handed to `_people.py`: six nullable
fields. -/
structure NameRow where
  f0 : Option String
  f1 : Option String
  f2 : Option String
  f3 : Option String
  f4 : Option String
  f5 : Option String
deriving DecidableEq

/-- The Person record assigned by `Person.__init__` in `_people.py`. The regex-split list entries assigned
to `last_name`/`first_name` are always strings, hence `String` here. -/
structure Person where
  imdb_id : String
  full_name : String
  last_name : String
  first_name : String
  birth_year : Option String
  death_year : Option String
  primary_profession : Option String
  known_for_title_ids : Option String
deriving DecidableEq

/-- Constructor `Person(fields)` from `_people.py`. -/
def Person.ofRow (r : NameRow) : Person :=
  let names := person_first_last (pyStr r.f1)
  { imdb_id := pyStr r.f0
    full_name := pyStr r.f1
    last_name := names.2
    first_name := names.1
    birth_year := r.f2
    death_year := r.f3
    primary_profession := r.f4
    known_for_title_ids := r.f5 }

/-- Predicate `_has_valid_known_for_title_ids` from `_people.py`: `None` is rejected;
otherwise accept iff some element of `known_for_title_ids.split(',')` is in
`valid_title_ids`. -/
def has_valid_known_for_title_ids (known : Option String)
    (validIds : List String) : Bool :=
  match known with
  | none => false
  | some s => (pySplitComma s).any (fun t => decide (t ∈ validIds))

/-- Function `_extract_people` from `_people.py`: a forward pass storing
`people[str(fields[0])] = Person(fields)` for every row whose known-for list
meets a valid title id. -/
def extract_people (rows : List NameRow) (validIds : List String) :
    List (String × Person) :=
  rows.foldl
    (fun acc r =>
      if has_valid_known_for_title_ids r.f5 validIds then
        dictInsert acc (pyStr r.f0) (Person.ofRow r)
      else acc)
    []

/-- C2 counterexample: the claim says a row whose known-for field is empty is
always rejected, but `''.split(',')` is `['']` in Python, so an empty
known-for field is accepted whenever the empty string is itself an accepted
Movie identifier — which the Movie extractor permits, since a snapshot row
whose id field is the empty string can pass `_title_is_valid`. Here the movie
snapshot row `('', 'movie', 'T', None, '0', '1999', None, '90', 'Drama')` is
accepted with id `''`, and then the person row with `known_for = ''` is
accepted, contradicting the claim. -/
theorem people_empty_known_for_counterexample :
    title_is_valid
        ⟨some "", some "movie", some "T", none, some "0", some "1999", none,
          some "90", some "Drama"⟩ = true ∧
    dictKeys
        (extract_movies
          [⟨some "", some "movie", some "T", none, some "0", some "1999",
            none, some "90", some "Drama"⟩]) = [""] ∧
    has_valid_known_for_title_ids (some "")
        (dictKeys
          (extract_movies
            [⟨some "", some "movie", some "T", none, some "0", some "1999",
              none, some "90", some "Drama"⟩])) = true ∧
    dictContains
        (extract_people
          [⟨some "nm1", some "A B", none, none, none, some ""⟩]
          (dictKeys
            (extract_movies
              [⟨some "", some "movie", some "T", none, some "0", some "1999",
                none, some "90", some "Drama"⟩]))) "nm1" = true := by
  decide

/-- C2 amended: the Person extractor accepts a row iff its known-for field is
present and some identifier of the comma-separated list is in the accepted
Movie identifier set; an absent (`None`) known-for field is always rejected;
an EMPTY known-for field is treated as the one-element list containing the
empty identifier, so it is rejected whenever the empty string is not an
accepted Movie identifier (rather than unconditionally); and an identifier
keys the resulting mapping iff some accepted row carries it. -/
theorem people_known_for_amended :
    (∀ validIds : List String,
      has_valid_known_for_title_ids none validIds = false) ∧
    (∀ (s : String) (validIds : List String),
      has_valid_known_for_title_ids (some s) validIds = true ↔
        ∃ t ∈ pySplitComma s, t ∈ validIds) ∧
    (∀ validIds : List String, "" ∉ validIds →
      has_valid_known_for_title_ids (some "") validIds = false) ∧
    (∀ (rows : List NameRow) (validIds : List String) (id : String),
      dictContains (extract_people rows validIds) id = true ↔
        ∃ r ∈ rows,
          has_valid_known_for_title_ids r.f5 validIds = true ∧
            pyStr r.f0 = id) := by
  refine ⟨fun validIds => rfl, fun s validIds => ?_, fun validIds h => ?_, ?_⟩
  · simp [has_valid_known_for_title_ids, List.any_eq_true]
  · simp [has_valid_known_for_title_ids, pySplitComma, splitCommaChars, h]
  · intro rows validIds id
    have h := dictContains_foldl_filtered
      (fun r : NameRow => has_valid_known_for_title_ids r.f5 validIds)
      (fun r => pyStr r.f0) Person.ofRow rows [] id
    simpa [extract_people, dictContains] using h

/-- C2 amended, witness: with accepted Movie identifier set `{"tt1"}`, an
absent known-for field is rejected and an empty known-for field is rejected
(the empty string is not an accepted identifier). -/
theorem people_known_for_amended_witness :
    has_valid_known_for_title_ids none ["tt1"] = false ∧
    has_valid_known_for_title_ids (some "") ["tt1"] = false :=
  ⟨people_known_for_amended.1 ["tt1"],
    people_known_for_amended.2.2.1 ["tt1"] (by decide)⟩

/-- C4 counterexample: the claim says a name without whitespace yields first
name `""` and last name equal to the whole string, so `"Madonna"` would give
`("", "Madonna")`. The code pads the unmatched split as
`['', match[0], '', '']` and then reads `first_name = match[1]`,
`last_name = match[2]`, so `"Madonna"` actually gives first name `"Madonna"`
and last name `""`. -/
theorem person_name_split_counterexample :
    person_first_last "Madonna" = ("Madonna", "") ∧
    ¬ person_first_last "Madonna" = ("", "Madonna") := by
  decide

/-- C4 amended: the Person name split yields the first whitespace-delimited
token as first name and the remainder as last name; when the string contains
no whitespace, the whole string becomes the FIRST name and the last name is
the empty string. In particular `"John Smith"` gives `("John", "Smith")`,
`"Mary Jane Watson"` gives `("Mary", "Jane Watson")`, and `"Madonna"` gives
first `"Madonna"`, last `""`. (The remainder clause is stated for remainders
without a newline character, the only case `NAME_REGEX` can match; snapshot
fields never contain newlines.) -/
theorem person_name_split_amended :
    person_first_last "John Smith" = ("John", "Smith") ∧
    person_first_last "Mary Jane Watson" = ("Mary", "Jane Watson") ∧
    person_first_last "Madonna" = ("Madonna", "") ∧
    (∀ s : String, findFirstSpace s.toList = none →
      person_first_last s = (s, "")) ∧
    (∀ (s : String) (p r : List Char),
      findFirstSpace s.toList = some (p, r) → '\n' ∉ r →
      person_first_last s = (String.mk p, String.mk r)) := by
  refine ⟨by decide, by decide, by decide, fun s h => ?_, fun s p r h hr => ?_⟩
  · have h' : findFirstSpace s.data = none := h
    simp [person_first_last, nameMatchList, String.toList, h']
  · have h' : findFirstSpace s.data = some (p, r) := h
    simp [person_first_last, nameMatchList, String.toList, h', hr]

/-- C4 amended, witness: the no-whitespace clause at `"Cher"` and the
remainder clause at `"Ab Cd"`. -/
theorem person_name_split_amended_witness :
    person_first_last "Cher" = ("Cher", "") ∧
    person_first_last "Ab Cd" = (String.mk ['A', 'b'], String.mk ['C', 'd']) :=
  ⟨person_name_split_amended.2.2.2.1 "Cher" (by decide),
    person_name_split_amended.2.2.2.2 "Ab Cd" ['A', 'b'] ['C', 'd']
      (by decide) (by decide)⟩

/-! ## `_aka_titles.py` -/

/-- Accumulate decimal digits; `none` as soon as a non-digit appears. -/
def digitsValAux (acc : Nat) : List Char → Option Nat
  | [] => some acc
  | c :: cs =>
      if c.isDigit then digitsValAux (acc * 10 + (c.toNat - '0'.toNat)) cs
      else none

/-- Python `int(s)` on the strings relevant here: an optional sign followed by
at least one decimal digit parses; anything else raises `ValueError`
(modelled as `none`). Python additionally strips surrounding whitespace and
allows underscore digit separators; those never occur in the snapshot's
sequence fields. -/
def pyInt (s : String) : Option Int :=
  match s.toList with
  | [] => none
  | '-' :: cs =>
      if cs = [] then none
      else (digitsValAux 0 cs).map (fun n => -(n : Int))
  | '+' :: cs =>
      if cs = [] then none
      else (digitsValAux 0 cs).map (fun n => (n : Int))
  | cs => (digitsValAux 0 cs).map (fun n => (n : Int))

/-- Apply a fallible constructor to every element in order; the whole pass
fails at the first failing element, like the Python loop raising out of
`_extract_aka_titles`. -/
def optMapList {α β : Type} (f : α → Option β) : List α → Option (List β)
  | [] => some []
  | x :: xs =>
      match f x, optMapList f xs with
      | some y, some ys => some (y :: ys)
      | _, _ => none

theorem optMapList_eq_some {α β : Type} (f : α → Option β) (l : List α)
    (ys : List β) :
    optMapList f l = some ys ↔
      List.Forall₂ (fun x y => f x = some y) l ys := by
  induction l generalizing ys with
  | nil =>
      cases ys with
      | nil => simp [optMapList]
      | cons y ys => simp [optMapList]
  | cons x xs ih =>
      cases ys with
      | nil =>
          constructor
          · intro h
            cases hfx : f x <;> cases hrest : optMapList f xs <;>
              simp [optMapList, hfx, hrest] at h
          · intro h
            cases h
      | cons y ys =>
          constructor
          · intro h
            cases hfx : f x with
            | none => simp [optMapList, hfx] at h
            | some y0 =>
                cases hrest : optMapList f xs with
                | none => simp [optMapList, hfx, hrest] at h
                | some ys0 =>
                    simp only [optMapList, hfx, hrest, Option.some.injEq,
                      List.cons.injEq] at h
                    obtain ⟨hy, hys⟩ := h
                    subst hy
                    subst hys
                    exact List.Forall₂.cons hfx ((ih _).mp hrest)
          · intro h
            cases h with
            | cons h1 h2 =>
                have hrest := (ih ys).mpr h2
                simp [optMapList, h1, hrest]

/-- One row of `title.akas.tsv` as handed to `_aka_titles.py`: eight nullable
fields. -/
structure AkaRow where
  f0 : Option String
  f1 : Option String
  f2 : Option String
  f3 : Option String
  f4 : Option String
  f5 : Option String
  f6 : Option String
  f7 : Option String
deriving DecidableEq

/-- The AkaTitle record assigned by `AkaTitle.__init__` in `_aka_titles.py`. -/
structure AkaTitle where
  movie_imdb_id : String
  sequence : Int
  title : String
  region : Option String
  language : Option String
  types : Option String
  attributes : Option String
  is_original_title : Option String
deriving DecidableEq

/-- Constructor `AkaTitle(fields)`: `str(fields[0])`, `int(str(fields[1]))` (which raises
on a malformed sequence field, hence `Option`), `str(fields[2])`, and the
remaining fields verbatim. -/
def mkAkaTitle (r : AkaRow) : Option AkaTitle :=
  match pyInt (pyStr r.f1) with
  | none => none
  | some n =>
      some
        { movie_imdb_id := pyStr r.f0
          sequence := n
          title := pyStr r.f2
          region := r.f3
          language := r.f4
          types := r.f5
          attributes := r.f6
          is_original_title := r.f7 }

/-- The check `if fields[0] in title_ids` from `_extract_aka_titles`: a `None` id is
never in a set of strings. -/
def aka_title_accepted (r : AkaRow) (validIds : List String) : Bool :=
  match r.f0 with
  | none => false
  | some id => decide (id ∈ validIds)

/-- Function `_extract_aka_titles` from `_aka_titles.py`: one forward pass appending
`AkaTitle(fields)` for every row whose owning movie id is a valid title id;
a malformed sequence field raises out of the pass. -/
def extract_aka_titles (rows : List AkaRow) (validIds : List String) :
    Option (List AkaTitle) :=
  optMapList mkAkaTitle (rows.filter (fun r => aka_title_accepted r validIds))

/-- C3: when `_extract_aka_titles` completes, a row is accepted iff its owning
movie identifier is in the accepted Movie identifier set; the output
corresponds 1-1, in the order the rows were read, to exactly the accepted
rows; and every produced AkaTitle carries its source row's sequence number
verbatim (`int(str(fields[1]))`, not renumbered) together with its owning
movie id. -/
theorem aka_titles_accepted_iff (rows : List AkaRow) (validIds : List String)
    (akas : List AkaTitle)
    (h : extract_aka_titles rows validIds = some akas) :
    (∀ r : AkaRow, aka_title_accepted r validIds = true ↔
      ∃ id, r.f0 = some id ∧ id ∈ validIds) ∧
    List.Forall₂ (fun (r : AkaRow) (a : AkaTitle) => mkAkaTitle r = some a)
      (rows.filter (fun r => aka_title_accepted r validIds)) akas ∧
    (∀ (r : AkaRow) (a : AkaTitle), mkAkaTitle r = some a →
      a.movie_imdb_id = pyStr r.f0 ∧ pyInt (pyStr r.f1) = some a.sequence) := by
  refine ⟨fun r => ?_, ?_, fun r a hmk => ?_⟩
  · cases hf : r.f0 with
    | none => simp [aka_title_accepted, hf]
    | some id => simp [aka_title_accepted, hf]
  · exact (optMapList_eq_some mkAkaTitle _ akas).mp h
  · cases hseq : pyInt (pyStr r.f1) with
    | none => simp [mkAkaTitle, hseq] at hmk
    | some n =>
        simp only [mkAkaTitle, hseq, Option.some.injEq] at hmk
        subst hmk
        exact ⟨rfl, rfl⟩

/-- C3 witness: a two-row snapshot where the first row's owner `tt1` is an
accepted movie id and the second row's owner `tt9` is not; extraction
completes, keeping exactly the first row with its sequence `7` verbatim. -/
theorem aka_titles_accepted_iff_witness :
    (∀ r : AkaRow, aka_title_accepted r ["tt1"] = true ↔
      ∃ id, r.f0 = some id ∧ id ∈ ["tt1"]) ∧
    List.Forall₂ (fun (r : AkaRow) (a : AkaTitle) => mkAkaTitle r = some a)
      ([⟨some "tt1", some "7", some "T", none, none, none, none, some "0"⟩,
        ⟨some "tt9", some "1", some "U", none, none, none, none, some "0"⟩].filter
        (fun r => aka_title_accepted r ["tt1"]))
      [⟨"tt1", 7, "T", none, none, none, none, some "0"⟩] ∧
    (∀ (r : AkaRow) (a : AkaTitle), mkAkaTitle r = some a →
      a.movie_imdb_id = pyStr r.f0 ∧ pyInt (pyStr r.f1) = some a.sequence) :=
  aka_titles_accepted_iff
    [⟨some "tt1", some "7", some "T", none, none, none, none, some "0"⟩,
      ⟨some "tt9", some "1", some "U", none, none, none, none, some "0"⟩]
    ["tt1"]
    [⟨"tt1", 7, "T", none, none, none, none, some "0"⟩]
    (by decide)

/-! ## `_movies.update`, `title_ids` and the registry cache

`title_ids` is an `lru_cache(1)` zero-argument function reading
`select imdb_id from movies`; `_movies.update` runs
`drop_and_create; insert(movies); title_ids.cache_clear()` inside the
checkpoint body, with no `try/finally` around `insert`, so an exception
raised inside `insert` (e.g. the `_validate` row-count check) propagates
before `cache_clear` runs. -/

/-- Process state seen by the registry: the persisted `movies` table (its id
column) and the single-slot `lru_cache` of `title_ids`. -/
structure RegistryState where
  moviesTable : List String
  registryCache : Option (List String)
deriving DecidableEq

/-- Reading `title_ids()` under `lru_cache(1)`: return the cached id set if the slot
is filled, otherwise read the persisted movies table and fill the slot. -/
def title_ids_read (s : RegistryState) : List String × RegistryState :=
  match s.registryCache with
  | some ids => (ids, s)
  | none => (s.moviesTable, { s with registryCache := some s.moviesTable })

/-- The Movie table rebuild of `_movies.update`: `drop_and_create` plus
`insert` replace the persisted table with the new generation's ids; when
`insert` finishes without error (`validateOk`), `title_ids.cache_clear()`
runs next; when `insert` raises (rows already persisted, `_validate` or index
creation failing), the exception propagates and the cache is left as it
was. Returns the new state and whether the update succeeded. -/
def movies_update_body (newIds : List String) (validateOk : Bool)
    (s : RegistryState) : RegistryState × Bool :=
  let s1 : RegistryState := { s with moviesTable := newIds }
  if validateOk then ({ s1 with registryCache := none }, true)
  else (s1, false)

/-- Modelled from the spec: the Orchestrator (its module is not under `src/`)
sequences `refresh(Movie)` before `refresh(Person)`/`refresh(AkaTitle)` and
"does not continue to dependent entities if Movie refresh itself failed"
(spec sections 4.6 and 7). Returns the Movie identifier set Person/AkaTitle
extraction reads, or `none` when the Movie refresh failed and they never
run. -/
def orchestrate_dependent_view (newIds : List String) (validateOk : Bool)
    (s : RegistryState) : Option (List String) :=
  let r := movies_update_body newIds validateOk s
  if r.2 then some (title_ids_read r.1).1 else none

/-- C5 counterexample: the claim says the registry cache is invalidated
immediately and unconditionally after a Movie table rebuild, including on
partial-success or error paths. On the error path where `insert` raises after
persisting rows (e.g. `_validate` fails), the movies table already holds the
new generation but `title_ids.cache_clear()` never runs: the cache still
holds the pre-rebuild id set. -/
theorem registry_invalidate_counterexample :
    (movies_update_body ["tt2"] false
        ⟨["tt1"], some ["tt1"]⟩).1.moviesTable = ["tt2"] ∧
    (movies_update_body ["tt2"] false
        ⟨["tt1"], some ["tt1"]⟩).1.registryCache = some ["tt1"] ∧
    ¬ (movies_update_body ["tt2"] false
        ⟨["tt1"], some ["tt1"]⟩).1.registryCache = none := by
  decide

/-- C5 amended: on the success path the registry cache is invalidated
immediately after the Movie table rebuild (before control returns from
`_movies.update`, hence before any Person/AkaTitle extraction reads it); on
error paths the cache is NOT invalidated, but the orchestrator does not
continue to Person/AkaTitle after a failed Movie refresh, so whenever
Person/AkaTitle extraction does read the registry it obtains exactly the
identifier set of the just-rebuilt Movie table, never one computed before the
most recent rebuild. -/
theorem registry_invalidate_amended :
    (∀ (newIds : List String) (s : RegistryState),
      (movies_update_body newIds true s).1.registryCache = none) ∧
    (∀ (newIds : List String) (validateOk : Bool) (s : RegistryState)
        (ids : List String),
      orchestrate_dependent_view newIds validateOk s = some ids →
        ids = newIds) := by
  constructor
  · intro newIds s
    rfl
  · intro newIds validateOk s ids h
    cases validateOk with
    | false => simp [orchestrate_dependent_view, movies_update_body] at h
    | true =>
        simp only [orchestrate_dependent_view, movies_update_body, if_pos,
          if_true, title_ids_read, Option.some.injEq] at h
        exact h.symm

/-- C5 amended, witness: a successful rebuild to `["tt2"]` from a state whose
cache held `["tt1"]` clears the cache, and the dependent extractors then read
exactly `["tt2"]`. -/
theorem registry_invalidate_amended_witness :
    (movies_update_body ["tt2"] true
        ⟨["tt1"], some ["tt1"]⟩).1.registryCache = none ∧
    ["tt2"] = ["tt2"] :=
  ⟨registry_invalidate_amended.1 ["tt2"] ⟨["tt1"], some ["tt1"]⟩,
    registry_invalidate_amended.2 ["tt2"] true ⟨["tt1"], some ["tt1"]⟩
      ["tt2"] (by decide)⟩

/-! ## Checkpointed refresh (C6) -/

/-- State of one entity's refresh across runs: the on-disk checkpoint marker
for the fetched generation, how many times the decompress/parse/extract/
rebuild body has actually run, and the persisted table's row count. -/
structure CkState where
  marker : Bool
  passes : Nat
  tableRows : Option Nat
deriving DecidableEq

/-- Modelled from the spec: `_imdb_s3_extractor.checkpoint` is not under
`src/`. Per spec section 4.2, the scoped handle yields one generation signal
when the completion marker is absent — the body (extract + drop-and-create +
insert) runs and the marker is committed after it finishes without error —
and yields nothing when the marker is present, skipping the body. The body
here persists `acceptedCount` rows, as the entity `update()` functions do. -/
def checkpointed_refresh (acceptedCount : Nat) (s : CkState) : CkState :=
  if s.marker then s
  else { marker := true, passes := s.passes + 1, tableRows := some acceptedCount }

/-- C6: running the full refresh twice against an unchanged snapshot
generation runs the body exactly once — the second run's checkpoint handle
yields nothing and the second state equals the first — and after both runs
the persisted row count equals the accepted-entity count of the single real
pass (here the Movie extractor's mapping size). -/
theorem checkpoint_idempotent (rows : List TitleRow) :
    checkpointed_refresh (extract_movies rows).length
        (checkpointed_refresh (extract_movies rows).length
          ⟨false, 0, none⟩) =
      checkpointed_refresh (extract_movies rows).length ⟨false, 0, none⟩ ∧
    (checkpointed_refresh (extract_movies rows).length
        (checkpointed_refresh (extract_movies rows).length
          ⟨false, 0, none⟩)).passes = 1 ∧
    (checkpointed_refresh (extract_movies rows).length
        (checkpointed_refresh (extract_movies rows).length
          ⟨false, 0, none⟩)).tableRows =
      some (extract_movies rows).length := by
  refine ⟨?_, ?_, ?_⟩ <;> simp [checkpointed_refresh]

/-! ## `utils/download_imdb_file.py` -/

/-- The remote resource's last-modified date (only the date part feeds
`strftime('%Y-%m-%d')`). -/
structure SimpleDate where
  year : Nat
  month : Nat
  day : Nat
deriving DecidableEq

/-- Two-digit zero padding, as `strftime` `%m`/`%d` produce. -/
def pad2 (n : Nat) : String :=
  if n < 10 then "0" ++ toString n else toString n

/-- Four-digit zero padding, as `strftime` `%Y` produces for the years at
hand. -/
def pad4 (n : Nat) : String :=
  if n < 10 then "000" ++ toString n
  else if n < 100 then "00" ++ toString n
  else if n < 1000 then "0" ++ toString n
  else toString n

/-- Formatting `last_modified_date.strftime('%Y-%m-%d')`. -/
def fmtDate (d : SimpleDate) : String :=
  pad4 d.year ++ "-" ++ pad2 d.month ++ "-" ++ pad2 d.day

/-- The parts of the local filesystem the downloader touches: the set of
existing directories and the set of existing files (a partial file counts as
existing — `os.path.exists` does not distinguish). -/
structure FileSys where
  dirs : List String
  files : List String
deriving DecidableEq

/-- How one invocation of `curl` ends. -/
inductive CurlOutcome where
  | success
  | interrupted
deriving DecidableEq

/-- Function `_ensure_download_path`: join the download root with the last-modified
date, create the directory when absent, and return it. -/
def ensure_download_path (root : String) (lm : SimpleDate) (fs : FileSys) :
    FileSys × String :=
  let dp := root ++ "/" ++ fmtDate lm
  if dp ∈ fs.dirs then (fs, dp)
  else ({ fs with dirs := dp :: fs.dirs }, dp)

/-- Function `_curl` runs `curl --fail --progress-bar -o dest url` writes to `dest`
directly as data arrives; on success the complete file is at `dest`, and on
an interrupted transfer the partial file is still at `dest` while
`subprocess.check_output` raises. Returns the filesystem and whether the
transfer completed. -/
def curl (dest : String) (o : CurlOutcome) (fs : FileSys) : FileSys × Bool :=
  match o with
  | .success => ({ fs with files := dest :: fs.files }, true)
  | .interrupted => ({ fs with files := dest :: fs.files }, false)

/-- Function `download_imdb_file`: probe the remote last-modified date, ensure the
dated directory, and reuse the file if it exists there, otherwise download.
Returns the filesystem, the returned local path (`none` when the download
raised), and whether a download was performed (attempted). -/
def download_imdb_file (name root : String) (lm : SimpleDate)
    (o : CurlOutcome) (fs : FileSys) : FileSys × Option String × Bool :=
  let dp := ensure_download_path root lm fs
  let localPath := dp.2 ++ "/" ++ name
  if localPath ∈ dp.1.files then (dp.1, some localPath, false)
  else
    let c := curl localPath o dp.1
    if c.2 then (c.1, some localPath, true) else (c.1, none, true)

theorem ensure_download_path_spec (root : String) (lm : SimpleDate)
    (fs : FileSys) :
    (ensure_download_path root lm fs).1.files = fs.files ∧
    (ensure_download_path root lm fs).2 = root ++ "/" ++ fmtDate lm := by
  unfold ensure_download_path
  by_cases h : (root ++ "/" ++ fmtDate lm) ∈ fs.dirs <;> simp [h]

/-- C7: while the remote last-modified timestamp is unchanged, a successful
fetch returns the path `<root>/<YYYY-MM-DD>/<name>` built from the remote
last-modified date, and a second fetch returns the same path and performs no
download, because the file already exists at that path. -/
theorem fetch_is_generation_cached (name root : String) (lm : SimpleDate)
    (fs : FileSys) (o : CurlOutcome) :
    (download_imdb_file name root lm CurlOutcome.success fs).2.1 =
      some (root ++ "/" ++ fmtDate lm ++ "/" ++ name) ∧
    (download_imdb_file name root lm o
        (download_imdb_file name root lm CurlOutcome.success fs).1).2.1 =
      some (root ++ "/" ++ fmtDate lm ++ "/" ++ name) ∧
    (download_imdb_file name root lm o
        (download_imdb_file name root lm CurlOutcome.success fs).1).2.2 =
      false := by
  by_cases hd : (root ++ "/" ++ fmtDate lm) ∈ fs.dirs <;>
    by_cases h : (root ++ "/" ++ fmtDate lm ++ "/" ++ name) ∈ fs.files <;>
      cases o <;>
        simp [download_imdb_file, ensure_download_path, curl, hd, h]

/-- C8: the claim says a failed or interrupted download leaves no file at the
final local cache path (temp-file-plus-rename atomicity). The code passes the
final path straight to `curl -o`, so an interrupted transfer leaves the
partial file at exactly that path while the fetch raises; a later run then
finds the file present and reuses the truncated download. Evaluated at the
failing input: fetching `title.basics.tsv.gz` into root `db` with remote
last-modified date 2020-01-02, interrupted mid-transfer. -/
theorem partial_download_left_at_final_path :
    (download_imdb_file "title.basics.tsv.gz" "db" ⟨2020, 1, 2⟩
        CurlOutcome.interrupted ⟨[], []⟩).2.1 = none ∧
    "db/2020-01-02/title.basics.tsv.gz" ∈
      (download_imdb_file "title.basics.tsv.gz" "db" ⟨2020, 1, 2⟩
        CurlOutcome.interrupted ⟨[], []⟩).1.files ∧
    (download_imdb_file "title.basics.tsv.gz" "db" ⟨2020, 1, 2⟩
        CurlOutcome.success
        (download_imdb_file "title.basics.tsv.gz" "db" ⟨2020, 1, 2⟩
          CurlOutcome.interrupted ⟨[], []⟩).1).2.2 = false := by
  decide

/-! ## `viewings.py`: table DDL (C9) -/

/-- The script `ViewingsTable.drop_and_create` passes to `executescript`,
after `.format(TABLE_NAME)` substitutes `viewings` into the DROP statement
(the CREATE statement's table name is the literal text `movies` in the
source). -/
def viewings_ddl : String :=
  "\n        DROP TABLE IF EXISTS \"viewings\";\n        CREATE TABLE \"movies\" (\n            \"id\"\n            \"movie_imdb_id\" TEXT NOT NULL REFERENCES movies(id) DEFERRABLE INITIALLY DEFERRED,\n            \"date\" DATE NOT NULL,\n            \"sequence\" INT NOT NULL,\n            \"venue\" TEXT NOT NULL);\n        "

/-- The statement `ViewingsTable.insert` executes per row. -/
def viewings_insert_ddl : String :=
  "\n          INSERT INTO viewings(movie_imdb_id, date, sequence, venue)\n          VALUES(:imdb_id, :date, :sequence, :venue);\n        "

/-- Whether `marker` is a prefix of `cs`. -/
def strHasPrefixChars : List Char → List Char → Bool
  | [], _ => true
  | _ :: _, [] => false
  | p :: ps, c :: cs => p = c && strHasPrefixChars ps cs

/-- Drop characters up to and including the first occurrence of `marker`;
`none` when `marker` does not occur. -/
def dropThroughMarker (marker : List Char) : List Char → Option (List Char)
  | [] => none
  | c :: cs =>
      if strHasPrefixChars marker (c :: cs) then some ((c :: cs).drop marker.length)
      else dropThroughMarker marker cs

/-- The characters before the first occurrence of `stop`. -/
def takeUntil (stop : Char) (cs : List Char) : List Char :=
  cs.takeWhile (fun c => c ≠ stop)

/-- The quoted table name following the first occurrence of `marker` in a
DDL script. -/
def tableNameAfter (marker : String) (ddl : String) : Option String :=
  (dropThroughMarker marker.toList ddl.toList).map
    (fun r => String.mk (takeUntil '"' r))

/-- The table name a `CREATE TABLE "..."` statement creates. -/
def created_table (ddl : String) : Option String :=
  tableNameAfter "CREATE TABLE \"" ddl

/-- The table name a `DROP TABLE IF EXISTS "..."` statement drops. -/
def dropped_table (ddl : String) : Option String :=
  tableNameAfter "DROP TABLE IF EXISTS \"" ddl

/-- The column of `movies` a `REFERENCES movies(...)` clause points at. -/
def fk_reference_column (ddl : String) : Option String :=
  (dropThroughMarker "REFERENCES movies(".toList ddl.toList).map
    (fun r => String.mk (takeUntil ')' r))

/-- The table an `INSERT INTO ...(` statement targets. -/
def insert_target_table (ddl : String) : Option String :=
  (dropThroughMarker "INSERT INTO ".toList ddl.toList).map
    (fun r => String.mk (takeUntil '(' r))

/-- Executing the drop-and-create script against a schema (the list of
existing table names): drop removes the dropped name if present; create adds
the created name, failing if a table of that name already exists. -/
def run_viewings_drop_and_create (schema : List String) :
    Except String (List String) :=
  match dropped_table viewings_ddl, created_table viewings_ddl with
  | some dn, some cn =>
      let s1 := schema.filter (fun t => t ≠ dn)
      if cn ∈ s1 then Except.error ("table already exists: " ++ cn)
      else Except.ok (cn :: s1)
  | _, _ => Except.error "malformed ddl"

/-- Executing the insert statement: fails unless its target table exists. -/
def run_viewings_insert (schema : List String) :
    Except String (List String) :=
  match insert_target_table viewings_insert_ddl with
  | some tn =>
      if tn ∈ schema then Except.ok schema
      else Except.error ("no such table: " ++ tn)
  | none => Except.error "malformed ddl"

/-- Running `viewings.update()`: `drop_and_create` then `insert`. -/
def run_viewings_update (schema : List String) :
    Except String (List String) :=
  (run_viewings_drop_and_create schema).bind run_viewings_insert

/-- C9: the claim says the viewings rebuild creates a table named
`"viewings"` referencing `movies.imdb_id`. The source's DDL drops
`"viewings"` but then literally reads `CREATE TABLE "movies"`, with its
reference clause `REFERENCES movies(id)` rather than `movies(imdb_id)`, and
the subsequent `INSERT INTO viewings` targets the table the script just
dropped and never recreated — so against every schema the rebuild fails
(either the `CREATE TABLE "movies"` collides with the existing `movies`
table, or the insert targets a missing `viewings` table). -/
theorem viewings_rebuild_creates_wrong_table :
    created_table viewings_ddl = some "movies" ∧
    ¬ created_table viewings_ddl = some "viewings" ∧
    dropped_table viewings_ddl = some "viewings" ∧
    fk_reference_column viewings_ddl = some "id" ∧
    ¬ fk_reference_column viewings_ddl = some "imdb_id" ∧
    insert_target_table viewings_insert_ddl = some "viewings" ∧
    (∀ schema : List String, ∃ e, run_viewings_update schema =
      Except.error e) := by
  have hcn : created_table viewings_ddl = some "movies" := by decide
  have hdn : dropped_table viewings_ddl = some "viewings" := by decide
  have hins : insert_target_table viewings_insert_ddl = some "viewings" := by
    decide
  refine ⟨hcn, by decide, hdn, by decide, by decide, hins, fun schema => ?_⟩
  by_cases h : "movies" ∈ schema
  · refine ⟨"table already exists: movies", ?_⟩
    simp [run_viewings_update, run_viewings_drop_and_create, hcn, hdn, h,
      Except.bind]
  · refine ⟨"no such table: viewings", ?_⟩
    simp [run_viewings_update, run_viewings_drop_and_create,
      run_viewings_insert, hcn, hdn, hins, h, Except.bind]

/-! ## `viewings.py`: the YAML round trip (C10) -/

/-- A scalar in the YAML documents `Viewing` reads and writes. -/
inductive YamlVal where
  | ystr (v : String)
  | yint (v : Int)
  | ydate (v : SimpleDate)
deriving DecidableEq

/-- The `Viewing` dataclass from `viewings.py` (`date` renamed `viewDate` to
avoid clashing with the module name it shadows in Python too). -/
structure Viewing where
  imdb_id : String
  title : String
  year : Int
  venue : String
  sequence : Int
  viewDate : SimpleDate
  file_path : Option String
deriving DecidableEq

/-- Property `Viewing.title_with_year`: the f-string `'{title} ({year})'`. -/
def title_with_year (v : Viewing) : String :=
  v.title ++ " (" ++ toString v.year ++ ")"

/-- Method `Viewing.to_yaml` (which `save()` writes verbatim): an ordered mapping
with exactly the keys `sequence`, `date`, `imdb_id`, `title`, `venue`
(`sort_keys=False` preserves this order), where the title value is the
combined `"Title (Year)"` string and no separate year key exists. -/
def viewing_to_yaml (v : Viewing) : List (String × YamlVal) :=
  [("sequence", .yint v.sequence),
   ("date", .ydate v.viewDate),
   ("imdb_id", .ystr v.imdb_id),
   ("title", .ystr (title_with_year v)),
   ("venue", .ystr v.venue)]

/-- Subscripting `yaml_object[k]` on the parsed mapping: the value at key `k`, or `none`
standing for the `KeyError` Python raises. -/
def ylookup (doc : List (String × YamlVal)) (k : String) : Option YamlVal :=
  match doc with
  | [] => none
  | (k0, v) :: rest => if k0 = k then some v else ylookup rest k

/-- Method `Viewing.load` on a parsed YAML mapping: subscripts the keys in the
evaluation order of its keyword arguments — `imdb_id`, `title`, `year`,
`venue`, `sequence`, `date` — and raises `KeyError` (modelled as
`Except.error` naming the key) at the first missing one. -/
def viewing_load (doc : List (String × YamlVal)) :
    Except String (YamlVal × YamlVal × YamlVal × YamlVal × YamlVal × YamlVal) :=
  match ylookup doc "imdb_id" with
  | none => Except.error "imdb_id"
  | some a =>
    match ylookup doc "title" with
    | none => Except.error "title"
    | some b =>
      match ylookup doc "year" with
      | none => Except.error "year"
      | some c =>
        match ylookup doc "venue" with
        | none => Except.error "venue"
        | some d =>
          match ylookup doc "sequence" with
          | none => Except.error "sequence"
          | some e =>
            match ylookup doc "date" with
            | none => Except.error "date"
            | some f => Except.ok (a, b, c, d, e, f)

/-- C10: for every Viewing, the saved YAML document has exactly the keys
`sequence`, `date`, `imdb_id`, `title`, `venue`, the title value is the
combined `"Title (Year)"` string, no `year` key is written, and therefore
`Viewing.load` — which subscripts a `year` key — fails with a missing-key
error on every document `save()` produces: load after save never
round-trips. -/
theorem viewing_save_load_mismatch (v : Viewing) :
    (viewing_to_yaml v).map Prod.fst =
      ["sequence", "date", "imdb_id", "title", "venue"] ∧
    ylookup (viewing_to_yaml v) "title" =
      some (.ystr (v.title ++ " (" ++ toString v.year ++ ")")) ∧
    ylookup (viewing_to_yaml v) "year" = none ∧
    viewing_load (viewing_to_yaml v) = Except.error "year" :=
  ⟨rfl, rfl, rfl, rfl⟩

end MovieDb
